import Mathlib

/-!
# Verification of the agent invocation and result-extraction pipeline

Shallow embedding of the core of the repository:

* `src/adws/bun_modules/claude-executor.ts` — executor (`executeClaudeCode`),
  retry controller (`executeClaudeCodeWithRetry`), template entry point
  (`executeTemplate`), prompt persistence (`savePrompt`), event stream parser
  (`parseJSONLOutput`), audit writers (`convertJSONLToJSON`,
  `saveLastEntryAsRawResult`);
* the shared truncation utility `truncateOutput` from the utils module;
* the bash wrappers `claude-code-exec.sh` and `claude-code-template.sh`.

External effects (spawning, file reads/writes, `JSON.parse`) are modelled by
explicit parameters: a file read that may fail is an `Option String`, a write
that may throw carries an `Option String` error description, and `JSON.parse`
is an oracle `String → Option Event` (`none` models a thrown `SyntaxError`).
JavaScript exceptions are modelled with `Except String`; a `try`/`catch`
block becomes an explicit case split on the error parameters that can fire
inside it.

Naming map between the spec's vocabulary and the code's identifiers:
`resultCode none` = `RetryCode.NONE`, `agentError` = `CLAUDE_CODE_ERROR`,
`timeoutError` = `TIMEOUT_ERROR`, `invocationError` = `EXECUTION_ERROR`,
`errorDuringExecution` = `ERROR_DURING_EXECUTION`.
-/

namespace ClaudeExec

/-- The closed set of retry/result codes used by `AgentPromptResponse.retry_code`
(`RetryCode` in `models.ts`, as consumed throughout `claude-executor.ts`). -/
inductive RetryCode where
  | none
  | claudeCodeError
  | timeoutError
  | executionError
  | errorDuringExecution
deriving DecidableEq, Repr

/-- One parsed NDJSON line, as the executor and the truncation utility access
it: a JavaScript object whose fields may be absent (`Option.none` models both
an absent field and a field of the wrong dynamic type, which the code treats
the same through `||` defaulting / `typeof` checks).  `msgText` collapses the
access chain `data.message?.content` followed by
`Array.isArray(content) ? content[0]?.text : undefined` used by
`truncateOutput` into the text it yields when every step succeeds. -/
structure Event where
  type : Option String
  subtype : Option String
  is_error : Option Bool
  result : Option String
  session_id : Option String
  msgText : Option String
deriving DecidableEq, Repr

/-- The `AgentPromptResponse` returned by the executor
(spec: `InvocationResponse`). -/
structure AgentPromptResponse where
  output : String
  success : Bool
  session_id : Option String
  retry_code : RetryCode
deriving DecidableEq, Repr

/-- Decidable equality for `Except`, so concrete executor outcomes can be
checked by `decide`. -/
instance {ε α : Type} [DecidableEq ε] [DecidableEq α] : DecidableEq (Except ε α) := fun a b =>
  match a, b with
  | Except.error x, Except.error y =>
    if h : x = y then Decidable.isTrue (h ▸ rfl)
    else Decidable.isFalse (fun hc => h (Except.error.inj hc))
  | Except.ok x, Except.ok y =>
    if h : x = y then Decidable.isTrue (h ▸ rfl)
    else Decidable.isFalse (fun hc => h (Except.ok.inj hc))
  | Except.error _, Except.ok _ => Decidable.isFalse (fun hc => Except.noConfusion hc)
  | Except.ok _, Except.error _ => Decidable.isFalse (fun hc => Except.noConfusion hc)

/-! ## String helpers mirroring the JavaScript primitives -/

/-- Does the character list `pat` occur as a leading segment of `l`?
(the prefix test underlying `String.prototype.includes`). -/
def lmatchesAt : List Char → List Char → Bool
  | [], _ => true
  | _ :: _, [] => false
  | p :: ps, c :: cs => p == c && lmatchesAt ps cs

/-- Does `pat` occur contiguously anywhere in the list?  Models
`String.prototype.includes` on the underlying characters. -/
def lcontains (pat : List Char) : List Char → Bool
  | [] => lmatchesAt pat []
  | c :: cs => lmatchesAt pat (c :: cs) || lcontains pat cs

/-- `haystack.includes(needle)` on strings. -/
def strIncludes (haystack needle : String) : Bool :=
  lcontains needle.toList haystack.toList

/-- `haystack.startsWith(needle)` on strings (kernel-reducible form). -/
def strStarts (haystack needle : String) : Bool :=
  lmatchesAt needle.toList haystack.toList

/-- Whitespace as trimmed by `String.prototype.trim` (restricted to the
ASCII white space the streams contain). -/
def jsWhitespace (c : Char) : Bool :=
  c == ' ' || c == '\t' || c == '\n' || c == '\r'

/-- `s.trim()`: drop leading and trailing whitespace. -/
def strTrim (s : String) : String :=
  ⟨((s.toList.dropWhile jsWhitespace).reverse.dropWhile jsWhitespace).reverse⟩

/-- Split a character list on a separator character; like JavaScript
`split`, a trailing separator yields a trailing empty group. -/
def lsplit (sep : Char) : List Char → List (List Char)
  | [] => [[]]
  | c :: cs =>
    if c == sep then [] :: lsplit sep cs
    else
      match lsplit sep cs with
      | [] => [[c]]
      | g :: gs => (c :: g) :: gs

/-- `s.split("\n")` (the only separator the code splits on). -/
def strSplitNl (s : String) : List String :=
  (lsplit '\n' s.toList).map (fun l => ⟨l⟩)

/-- `parts.join(" ")`. -/
def joinSpace : List String → String
  | [] => ""
  | [x] => x
  | x :: y :: xs => x ++ " " ++ joinSpace (y :: xs)

/-- `s.slice(0, n)` for a possibly negative or oversized `n`
(JavaScript clamps: negative end yields the empty string here because the
start is 0 and the code only ever calls it with a cut position used as end). -/
def strSlice (s : String) (n : Int) : String :=
  if n ≤ 0 then "" else ⟨s.toList.take n.toNat⟩

/-- Largest index `i ≤ fromIdx` such that `s[i] = c`, else `-1`:
`s.lastIndexOf(String.fromCharCode(c), fromIdx)` for a single-character
search string and nonnegative clamped position. -/
def lastIndexOfChar (s : String) (c : Char) (fromIdx : Int) : Int :=
  let idxs := (List.range s.length).filter
    (fun i => s.toList.getD i ' ' == c && (i : Int) ≤ fromIdx)
  match idxs.max? with
  | Option.some i => (i : Int)
  | Option.none => -1

/-! ## Output truncation (`truncateOutput` in the utils module)

The JSONL-looking branch calls `JSON.parse` per line inside a per-line
`try`/`catch` (malformed lines are skipped there), extracts the last
result/assistant text scanning from the end, and recurses on the extracted
text.  The recursion is bounded by a fuel parameter: real `JSON.parse` can
only produce a `result` string strictly shorter than the line that encodes
it, so `output.length` fuel is never exhausted on inputs the real code sees. -/

/-- The default truncation suffix of `truncateOutput`. -/
def truncSuffix : String := "... (truncated)"

/-- Scan the (already reversed) list of lines for the last line that yields
human-readable text: a `result` event whose `result` field is a string, or an
`assistant` event with non-empty first-content text.  Mirrors the backwards
`for` loop with its per-line `try`/`catch` (`parse line = none` is a caught
`JSON.parse` throw) and the `if (!line) continue` falsy-skip. -/
def extractFromLines (parse : String → Option Event) : List String → Option String
  | [] => Option.none
  | line :: rest =>
    if line = "" then extractFromLines parse rest
    else
      match parse line with
      | Option.none => extractFromLines parse rest
      | Option.some ev =>
        if ev.type == Option.some "result" && ev.result.isSome then
          ev.result
        else if ev.type == Option.some "assistant" &&
            (match ev.msgText with
             | Option.some t => t ≠ ""
             | Option.none => false : Bool) then
          ev.msgText
        else
          extractFromLines parse rest

/-- The shape test guarding the JSONL branch:
`output.startsWith('\x7b"type":') && output.includes('\n\x7b"type":')`. -/
def isJSONLShaped (output : String) : Bool :=
  strStarts output "\x7b\"type\":" && strIncludes output "\n\x7b\"type\":"

/-- The regular (non-JSONL) truncation logic of `truncateOutput`: return
short strings unchanged, otherwise cut at a newline within 50 characters or a
space within 20 characters behind the truncation point, else cut exactly
there, and append the suffix. -/
def truncRegular (output : String) (maxLength : Nat) (suffix : String) : String :=
  if output.length ≤ maxLength then output
  else
    let truncateAt : Int := (maxLength : Int) - (suffix.length : Int)
    let newlinePos := lastIndexOfChar output '\n' truncateAt
    if newlinePos > truncateAt - 50 && newlinePos > 0 then
      strSlice output newlinePos ++ suffix
    else
      let spacePos := lastIndexOfChar output ' ' truncateAt
      if spacePos > truncateAt - 20 && spacePos > 0 then
        strSlice output spacePos ++ suffix
      else
        strSlice output truncateAt ++ suffix

/-- `truncateOutput(output, maxLength, suffix)` with `JSON.parse` oracle
`parse` and recursion fuel (see the section comment). -/
def truncateOutput (parse : String → Option Event) :
    Nat → String → Nat → String → String
  | fuel, output, maxLength, suffix =>
    if isJSONLShaped output then
      let lines := strSplitNl (strTrim output)
      match extractFromLines parse lines.reverse with
      | Option.some text =>
        match fuel with
        | 0 => text
        | f + 1 => truncateOutput parse f text maxLength suffix
      | Option.none =>
        "[JSONL output with " ++ toString lines.length ++ " messages]" ++ suffix
    else
      truncRegular output maxLength suffix

/-! ## Event stream parser (`parseJSONLOutput`)

`parseJSONLOutput` reads the output file, splits it into non-blank lines and
maps `JSON.parse` over all of them; the single `try`/`catch` wraps the file
read *and* the whole map, so one thrown parse lands in the catch and yields
`{ messages: [], resultMessage: null }`.  The file read is modelled as an
`Option String` (`Option.none` = the read threw, e.g. missing file). -/

/-- The result record of `parseJSONLOutput`. -/
structure ParseOutcome where
  messages : List Event
  resultMessage : Option Event
deriving DecidableEq, Repr

/-- `text.trim().split("\n").filter((line) => line.trim())`. -/
def splitLines (text : String) : List String :=
  (strSplitNl (strTrim text)).filter (fun l => strTrim l ≠ "")

/-- Scan `messages` from the end for the first entry with
`type === "result"` (the backwards `for` loop). -/
def findResultMessage (messages : List Event) : Option Event :=
  messages.reverse.find? (fun m => m.type == Option.some "result")

/-- `lines.map((line) => JSON.parse(line))` under the surrounding `try`: the
first line on which `JSON.parse` throws aborts the whole map with
`Option.none`. -/
def mapLines (parse : String → Option Event) : List String → Option (List Event)
  | [] => Option.some []
  | l :: ls =>
    match parse l with
    | Option.none => Option.none
    | Option.some ev =>
      match mapLines parse ls with
      | Option.none => Option.none
      | Option.some evs => Option.some (ev :: evs)

/-- `parseJSONLOutput(outputFile)`: `fileText` is the outcome of
`Bun.file(outputFile).text()` and `parse` the `JSON.parse` oracle.  The one
`try`/`catch` wraps the read and the whole map, so either failure yields the
empty outcome. -/
def parseJSONLOutput (parse : String → Option Event) (fileText : Option String) :
    ParseOutcome :=
  match fileText with
  | Option.none => ⟨[], Option.none⟩
  | Option.some text =>
    match mapLines parse (splitLines text) with
    | Option.none => ⟨[], Option.none⟩
    | Option.some messages => ⟨messages, findResultMessage messages⟩

/-! ## Executor (`executeClaudeCode`)

The environment record collects every external effect of one invocation.
The placeholder write that creates the output directory (line 36 of
`claude-executor.ts`) happens *before* the `try` block; the spawn/wait, the
re-parse inside `convertJSONLToJSON` and its `Bun.write` happen inside it.
`saveLastEntryAsRawResult` wraps its whole body in its own `try`/`catch`
returning `null`, so its failure (`saveLastError`) can never influence the
response; the field is carried to state that fact. -/

/-- External effects of one `executeClaudeCode` call.  Each `Option String`
error field is `some e` when the corresponding awaited operation throws with
description `e`. -/
structure ExecEnv where
  /-- `Bun.write(join(outputDir, ".placeholder"), "")` — outside the try. -/
  mkdirError : Option String
  /-- `Bun.spawn` / `proc.exited` — inside the try. -/
  spawnError : Option String
  /-- Exit code of the bash wrapper subprocess. -/
  exitCode : Int
  /-- Content of the output file, `Option.none` when reading throws. -/
  fileText : Option String
  /-- The `JSON.parse` oracle. -/
  parse : String → Option Event
  /-- `Bun.write(jsonFile, ...)` inside `convertJSONLToJSON` — in the try. -/
  convertError : Option String
  /-- Failure inside `saveLastEntryAsRawResult` — swallowed by its catch. -/
  saveLastError : Option String
  /-- Captured standard-error text of the subprocess. -/
  stderr : String

/-- The success-path classification (`exitCode === 0 && resultMessage`):
`error_during_execution` subtype first, then `is_error` with truncation of
long error text. -/
def classifyResult (parse : String → Option Event) (rm : Event) :
    AgentPromptResponse :=
  let isError := rm.is_error.getD false
  let subtype := rm.subtype.getD ""
  if subtype = "error_during_execution" then
    { output := "Error during execution: Agent encountered an error and did not return a result"
      success := false
      session_id := rm.session_id
      retry_code := RetryCode.errorDuringExecution }
  else
    let resultText := rm.result.getD ""
    let finalOutput :=
      if isError && resultText.length > 1000 then
        truncateOutput parse resultText.length resultText 800 truncSuffix
      else resultText
    { output := finalOutput
      success := !isError
      session_id := rm.session_id
      retry_code := RetryCode.none }

/-- The final `else` branch (any exit code other than a 0-with-result or
124): stderr if non-empty else a generic message, overridden by the result
event's own text whenever `resultMessage?.is_error` is truthy, truncated to
800. -/
def agentErrorResponse (parse : String → Option Event) (exitCode : Int)
    (rmOpt : Option Event) (stderr : String) : AgentPromptResponse :=
  let base :=
    if stderr ≠ "" then stderr
    else "Claude Code command failed with exit code " ++ toString exitCode
  let errorMsg :=
    if (rmOpt.bind Event.is_error).getD false then
      "Claude Code error: " ++ ((rmOpt.bind Event.result).getD "undefined")
    else base
  { output := truncateOutput parse errorMsg.length errorMsg 800 truncSuffix
    success := false
    session_id := rmOpt.bind Event.session_id
    retry_code := RetryCode.claudeCodeError }

/-- The fixed timeout response (`exitCode === 124`). -/
def timeoutResponse : AgentPromptResponse :=
  { output := "Error: Claude Code command timed out after 5 minutes"
    success := false
    session_id := Option.none
    retry_code := RetryCode.timeoutError }

/-- The classification cascade of `executeClaudeCode` after the subprocess
has exited and the output file has been parsed. -/
def classify (parse : String → Option Event) (exitCode : Int)
    (rmOpt : Option Event) (stderr : String) : AgentPromptResponse :=
  if h : exitCode = 0 ∧ rmOpt.isSome then
    classifyResult parse (rmOpt.get h.2)
  else if exitCode = 124 then
    timeoutResponse
  else
    agentErrorResponse parse exitCode rmOpt stderr

/-- `executeClaudeCode(request)` over an effect environment.
`Except.error` models an exception escaping to the caller (only possible
from the placeholder write before the `try`); everything thrown inside the
`try` is converted by the `catch` into an `EXECUTION_ERROR` response whose
output interpolates the error. -/
def executeClaudeCode (env : ExecEnv) : Except String AgentPromptResponse :=
  match env.mkdirError with
  | Option.some e => Except.error e
  | Option.none =>
    match env.spawnError with
    | Option.some e =>
      Except.ok
        { output := "Error executing Claude Code: " ++ e
          success := false
          session_id := Option.none
          retry_code := RetryCode.executionError }
    | Option.none =>
      let parsed := parseJSONLOutput env.parse env.fileText
      match env.convertError with
      | Option.some e =>
        Except.ok
          { output := "Error executing Claude Code: " ++ e
            success := false
            session_id := Option.none
            retry_code := RetryCode.executionError }
      | Option.none =>
        Except.ok (classify env.parse env.exitCode parsed.resultMessage env.stderr)

/-! ## Retry controller (`executeClaudeCodeWithRetry`)

The backoff sleeps have no effect on which attempts run or on the returned
response (a delay only suspends the flow), so they are not modelled.  The
loop body is one underlying invocation per iteration; the model returns the
response together with the number of invocations performed.  `Option.none`
models the `throw new Error("Unexpected retry logic error")` after the loop,
reachable only with zero iterations. -/

/-- The retryable subset checked by the controller. -/
def retryableCodes : List RetryCode :=
  [RetryCode.claudeCodeError, RetryCode.timeoutError,
   RetryCode.executionError, RetryCode.errorDuringExecution]

/-- The `for` loop from attempt index `attempt` with `remaining` iterations
left (`remaining = maxRetries + 1 - attempt` at entry); `responses i` is the
response of the `i`-th underlying `executeClaudeCode` call. -/
def retryFrom (responses : Nat → AgentPromptResponse) :
    Nat → Nat → Option (AgentPromptResponse × Nat)
  | _, 0 => Option.none
  | attempt, r + 1 =>
    let resp := responses attempt
    if resp.success || resp.retry_code == RetryCode.none then
      Option.some (resp, attempt + 1)
    else if !(retryableCodes.contains resp.retry_code) then
      Option.some (resp, attempt + 1)
    else if r = 0 then
      Option.some (resp, attempt + 1)
    else
      retryFrom responses (attempt + 1) r

/-- `executeClaudeCodeWithRetry(request, maxRetries)`: runs attempts
`0 .. maxRetries` and returns the final response with the number of
underlying invocations made. -/
def executeClaudeCodeWithRetry (responses : Nat → AgentPromptResponse)
    (maxRetries : Nat) : Option (AgentPromptResponse × Nat) :=
  retryFrom responses 0 (maxRetries + 1)

/-! ## Template entry point (`executeTemplate`) and prompt persistence -/

/-- `AgentTemplateRequest` (fields as consumed by `executeTemplate`). -/
structure AgentTemplateRequest where
  agent_name : String
  slash_command : String
  args : List String
  adw_id : String
  model : String
  working_dir : Option String
deriving DecidableEq, Repr

/-- `AgentPromptRequest` (fields as constructed by `executeTemplate` and
consumed by `executeClaudeCode`). -/
structure AgentPromptRequest where
  prompt : String
  adw_id : String
  agent_name : String
  model : String
  dangerously_skip_permissions : Bool
  output_file : String
  working_dir : Option String
deriving DecidableEq, Repr

/-- The character class of the JavaScript regex escape `\w`:
`[A-Za-z0-9_]`. -/
def isWordChar (c : Char) : Bool :=
  ('a' ≤ c && c ≤ 'z') || ('A' ≤ c && c ≤ 'Z') || ('0' ≤ c && c ≤ '9') || c == '_'

/-- Does `prompt.match(/^(\/\w+)/)` succeed — a leading slash followed by at
least one word character? -/
def matchesSlashCommand (prompt : String) : Bool :=
  match prompt.toList with
  | '/' :: c :: _ => isWordChar c
  | _ => false

/-- `savePrompt(prompt, adwId, agentName)`, modelled by the exception it lets
escape: when the slash-command regex does not match it returns before any
write, otherwise a failing `Bun.write` (description `writeError`) propagates
— `savePrompt` has no `try`/`catch` of its own. -/
def savePromptThrows (prompt : String) (writeError : Option String) :
    Option String :=
  if matchesSlashCommand prompt then writeError else Option.none

/-- The `AgentPromptRequest` literal built inside `executeTemplate`:
prompt is the slash command and space-joined args, trimmed, and
`dangerously_skip_permissions` is the literal `true`.  `outputFile` stands
for `join(projectRoot, "agents", adw_id, agent_name, OUTPUT_JSONL)`, whose
path arithmetic is opaque here. -/
def buildPromptRequest (req : AgentTemplateRequest) (outputFile : String) :
    AgentPromptRequest :=
  { prompt := strTrim (req.slash_command ++ " " ++ joinSpace req.args)
    adw_id := req.adw_id
    agent_name := req.agent_name
    model := req.model
    dangerously_skip_permissions := true
    output_file := outputFile
    working_dir := req.working_dir }

/-- `executeTemplate(request)`: build the prompt request, write the
placeholder for the agents directory, persist the prompt via `savePrompt`,
then run `executeClaudeCodeWithRetry`.  None of these `await`s is guarded by
a `try`/`catch`, so a throwing directory write (`dirWriteError`) or prompt
write (`promptWriteError`) escapes to the caller as `Except.error`; `run`
abstracts the retry invocation on the built request. -/
def executeTemplate (req : AgentTemplateRequest) (outputFile : String)
    (dirWriteError promptWriteError : Option String)
    (run : AgentPromptRequest → AgentPromptResponse) :
    Except String AgentPromptResponse :=
  let promptRequest := buildPromptRequest req outputFile
  match dirWriteError with
  | Option.some e => Except.error e
  | Option.none =>
    match savePromptThrows promptRequest.prompt promptWriteError with
    | Option.some e => Except.error e
    | Option.none => Except.ok (run promptRequest)

/-! ## Bash wrappers

`claude-code-exec.sh` validates its arguments, resolves the agent binary,
creates the output directory and runs the agent under `timeout 300`.  The
exit-code constants come from `adws/bash/lib/error-codes.sh`, whose values
are fixed by the repository's conversion plan
(`src/specs/plan-python-to-bun-conversion-hybrid-bash.md`: EXIT_SUCCESS=0,
EXIT_CLAUDE_ERROR=1, EXIT_TIMEOUT=124, EXIT_INVALID_ARGS=2) and restated in
the script's header comment. -/

def EXIT_SUCCESS : Int := 0
def EXIT_CLAUDE_ERROR : Int := 1
def EXIT_TIMEOUT : Int := 124
def EXIT_INVALID_ARGS : Int := 2

/-- External facts one run of `claude-code-exec.sh` depends on. -/
structure ExecScriptEnv where
  /-- Number of positional arguments supplied. -/
  argc : Nat
  /-- The second positional argument. -/
  model : String
  /-- Does the working directory (argument 4) exist? -/
  workingDirExists : Bool
  /-- Does `command -v "$CLAUDE_PATH"` resolve the agent binary? -/
  binaryFound : Bool
  /-- `mkdir -p "$OUTPUT_DIR"`: `some c` = failed with status `c`
  (the script runs under `set -e`, so the failure aborts with `c`). -/
  mkdirExit : Option Int
  /-- Did `cd "$WORKING_DIR"` succeed? -/
  cdOk : Bool
  /-- Exit status of `timeout 300 "$\x7bCMD[@]\x7d" > "$OUTPUT_FILE" 2>&1`
  (124 when the timeout fired). -/
  agentExit : Int
deriving DecidableEq, Repr

/-- Outcome of the wrapper script: its exit code and whether the agent
subprocess was ever spawned. -/
structure ScriptResult where
  exitCode : Int
  spawned : Bool
deriving DecidableEq, Repr

/-- `claude-code-exec.sh` control flow, in source order: argument count,
model validation, working-directory check, binary resolution, directory
creation, `cd`, then the timed agent run and exit-code translation. -/
def claudeCodeExec (env : ExecScriptEnv) : ScriptResult :=
  if env.argc < 6 then ⟨EXIT_INVALID_ARGS, false⟩
  else if env.model ≠ "sonnet" && env.model ≠ "opus" then ⟨EXIT_INVALID_ARGS, false⟩
  else if !env.workingDirExists then ⟨EXIT_INVALID_ARGS, false⟩
  else if !env.binaryFound then ⟨EXIT_CLAUDE_ERROR, false⟩
  else
    match env.mkdirExit with
    | Option.some c => ⟨c, false⟩
    | Option.none =>
      if !env.cdOk then ⟨EXIT_INVALID_ARGS, false⟩
      else if env.agentExit = 0 then ⟨EXIT_SUCCESS, true⟩
      else if env.agentExit = 124 then ⟨EXIT_TIMEOUT, true⟩
      else ⟨EXIT_CLAUDE_ERROR, true⟩

/-- `claude-code-template.sh`: validate, build the prompt from the slash
command and args, then `exec claude-code-exec.sh` with `skip_permissions`
hard-coded to the literal string `"true"`.  Returns the six positional
arguments handed to the exec wrapper, or the early exit code. -/
def claudeCodeTemplate (argc : Nat)
    (slashCommand args outputFile model workingDir mcpConfigPath : String) :
    Except Int (List String) :=
  if argc < 6 then Except.error EXIT_INVALID_ARGS
  else if !(strStarts slashCommand "/") then Except.error EXIT_INVALID_ARGS
  else
    let prompt := if args ≠ "" then slashCommand ++ " " ++ args else slashCommand
    Except.ok [prompt, model, outputFile, workingDir, mcpConfigPath, "true"]

/-! ## Concrete fixtures

Each fixture is a small, literal run of the embedding: an NDJSON line as the
agent would emit it, the event `JSON.parse` yields on it (the oracle returns
exactly that event on that line and throws elsewhere), and an effect
environment.  They are used to instantiate and to refute the claims. -/

/-- A result line with `is_error: true` (a normal error answer). -/
def lineErrTrue : String :=
  "\x7b\"type\":\"result\",\"is_error\":true,\"result\":\"boom\",\"session_id\":\"s\"\x7d"

/-- The event `JSON.parse` yields on `lineErrTrue`. -/
def rmErrTrue : Event :=
  ⟨Option.some "result", Option.none, Option.some true, Option.some "boom",
   Option.some "s", Option.none⟩

/-- Oracle for runs whose output file holds `lineErrTrue`. -/
def parseErrTrue : String → Option Event :=
  fun s => if s = lineErrTrue then Option.some rmErrTrue else Option.none

/-- Clean run (exit 0) whose stream carries an error-flagged result event. -/
def envErrTrue : ExecEnv :=
  ⟨Option.none, Option.none, 0, Option.some lineErrTrue, parseErrTrue,
   Option.none, Option.none, ""⟩

/-- A well-formed result line with a successful answer. -/
def lineOk : String := "\x7b\"type\":\"result\",\"result\":\"ok\"\x7d"

/-- The event `JSON.parse` yields on `lineOk`. -/
def rmOk : Event :=
  ⟨Option.some "result", Option.none, Option.none, Option.some "ok",
   Option.none, Option.none⟩

/-- Oracle for runs whose output file holds `lineOk` (and possibly malformed
noise, on which it throws). -/
def parseOk : String → Option Event :=
  fun s => if s = lineOk then Option.some rmOk else Option.none

/-- An output file with one parseable result line followed by a malformed
line. -/
def textMixed : String := lineOk ++ "\n" ++ "not json"

/-- Clean successful run over `lineOk`. -/
def envConvGood : ExecEnv :=
  ⟨Option.none, Option.none, 0, Option.some lineOk, parseOk,
   Option.none, Option.none, ""⟩

/-- The same run, except the `Bun.write` inside `convertJSONLToJSON`
throws. -/
def envConvBad : ExecEnv :=
  { envConvGood with convertError := Option.some "disk full" }

/-- A run in which the placeholder write creating the output directory
throws. -/
def envMkdirFail : ExecEnv :=
  { envConvGood with mkdirError := Option.some "EACCES: permission denied" }

/-- A result line with subtype `error_during_execution` and
`is_error: false`. -/
def lineEde : String :=
  "\x7b\"type\":\"result\",\"subtype\":\"error_during_execution\",\"is_error\":false\x7d"

/-- The event `JSON.parse` yields on `lineEde`. -/
def rmEde : Event :=
  ⟨Option.some "result", Option.some "error_during_execution",
   Option.some false, Option.none, Option.none, Option.none⟩

/-- Oracle for runs whose output file holds `lineEde`. -/
def parseEde : String → Option Event :=
  fun s => if s = lineEde then Option.some rmEde else Option.none

/-- Exit-0 run whose result event has subtype `error_during_execution`. -/
def envEde : ExecEnv :=
  ⟨Option.none, Option.none, 0, Option.some lineEde, parseEde,
   Option.none, Option.none, ""⟩

/-- A result line flagged `is_error` for a failed (exit 1) run. -/
def lineAgentErr : String :=
  "\x7b\"type\":\"result\",\"is_error\":true,\"result\":\"agent refused\",\"session_id\":\"s5\"\x7d"

/-- The event `JSON.parse` yields on `lineAgentErr`. -/
def rmAgentErr : Event :=
  ⟨Option.some "result", Option.none, Option.some true,
   Option.some "agent refused", Option.some "s5", Option.none⟩

/-- Oracle for runs whose output file holds `lineAgentErr`. -/
def parseAgentErr : String → Option Event :=
  fun s => if s = lineAgentErr then Option.some rmAgentErr else Option.none

/-- Exit-1 run with non-empty captured stderr *and* an error-flagged result
event in the stream. -/
def envAgentErr : ExecEnv :=
  ⟨Option.none, Option.none, 1, Option.some lineAgentErr, parseAgentErr,
   Option.none, Option.none, "stderr text"⟩

/-- A failing response as the executor classifies a retryable agent error. -/
def respFail : AgentPromptResponse :=
  ⟨"err", false, Option.none, RetryCode.claudeCodeError⟩

/-- A successful response. -/
def respOk : AgentPromptResponse :=
  ⟨"done", true, Option.none, RetryCode.none⟩

/-- An invocation sequence whose first attempt fails retryably and whose
second succeeds. -/
def respSeq : Nat → AgentPromptResponse :=
  fun i => if i = 0 then respFail else respOk

/-- A two-line JSONL-shaped string shorter than every limit the code uses,
whose events are neither result nor assistant events. -/
def outShortJsonl : String := "\x7b\"type\":\"a\"\x7d\n\x7b\"type\":\"b\"\x7d"

/-- Oracle for the two lines of `outShortJsonl`. -/
def parseShortJsonl : String → Option Event :=
  fun s =>
    if s = "\x7b\"type\":\"a\"\x7d" then
      Option.some ⟨Option.some "a", Option.none, Option.none, Option.none,
        Option.none, Option.none⟩
    else if s = "\x7b\"type\":\"b\"\x7d" then
      Option.some ⟨Option.some "b", Option.none, Option.none, Option.none,
        Option.none, Option.none⟩
    else Option.none

/-- Valid wrapper-script arguments with an unresolvable agent binary. -/
def envNoBinary : ExecScriptEnv :=
  ⟨6, "sonnet", true, false, Option.none, true, 0⟩

/-- A concrete template request. -/
def reqTemplate : AgentTemplateRequest :=
  ⟨"builder", "/build", ["x"], "adw1", "sonnet", Option.none⟩

/-- A run whose wrapper exits 124 (timeout) with no output produced. -/
def envTimeout : ExecEnv :=
  ⟨Option.none, Option.none, 124, Option.none, (fun _ => Option.none),
   Option.none, Option.none, ""⟩

/-- The corrected priority for the error output of a failed (non-0, non-124)
run, written from the amended claim's words: the result event's text
prefixed as a Claude Code error whenever the event exists with a truthy
`is_error`, else the captured stderr if non-empty, else a generic message.
Compared against the executor below. -/
def amendedAgentErrorMsg (rmOpt : Option Event) (stderr : String)
    (exitCode : Int) : String :=
  if (rmOpt.bind Event.is_error).getD false then
    "Claude Code error: " ++ ((rmOpt.bind Event.result).getD "undefined")
  else if stderr ≠ "" then stderr
  else "Claude Code command failed with exit code " ++ toString exitCode

/-! ## Helper lemmas -/

/-- A map that throws on some member of the list aborts with `Option.none`. -/
theorem mapLines_eq_none {parse : String → Option Event} :
    ∀ {ls : List String} {l : String}, l ∈ ls → parse l = Option.none →
      mapLines parse ls = Option.none := by
  intro ls
  induction ls with
  | nil => intro l hmem; cases hmem
  | cons x xs ih =>
    intro l hmem hl
    cases hmem with
    | head => unfold mapLines; rw [hl]
    | tail _ hmem =>
      unfold mapLines
      cases hx : parse x with
      | none => rfl
      | some ev => rw [ih hmem hl]

/-- If filtering a list yields exactly one element, `find?` returns it. -/
theorem find_of_filter_singleton {α : Type} (p : α → Bool) :
    ∀ (l : List α) (a : α), l.filter p = [a] → l.find? p = Option.some a := by
  intro l
  induction l with
  | nil => intro a h; simp at h
  | cons x xs ih =>
    intro a h
    by_cases hx : p x
    · rw [List.filter_cons_of_pos hx] at h
      rw [List.find?_cons_of_pos _ hx]
      injection h with h1 _
      rw [h1]
    · rw [List.filter_cons_of_neg hx] at h
      rw [List.find?_cons_of_neg _ hx]
      exact ih a h

/-- When the parsed messages contain exactly one result-typed event, the
backwards scan yields it. -/
theorem findResultMessage_of_unique (ms : List Event) (rm : Event)
    (h : ms.filter (fun m => m.type == Option.some "result") = [rm]) :
    findResultMessage ms = Option.some rm := by
  unfold findResultMessage
  apply find_of_filter_singleton
  rw [List.filter_reverse, h]
  rfl

/-- The classification cascade never returns a failing success flag together
with a non-`NONE` code on its success branch: every branch either fails or
carries `RetryCode.none`. -/
theorem classify_success_or_none (parse : String → Option Event) (ec : Int)
    (rmOpt : Option Event) (stderr : String) :
    (classify parse ec rmOpt stderr).success = false ∨
      (classify parse ec rmOpt stderr).retry_code = RetryCode.none := by
  unfold classify
  split
  · unfold classifyResult
    dsimp only
    split
    · exact Or.inl rfl
    · exact Or.inr rfl
  · split
    · exact Or.inl rfl
    · exact Or.inl rfl

/-- When none of the effects inside (or before) the `try` block throws, the
executor returns exactly the classification of the parsed stream. -/
theorem executeClaudeCode_clean (env : ExecEnv)
    (hmk : env.mkdirError = Option.none) (hsp : env.spawnError = Option.none)
    (hcv : env.convertError = Option.none) :
    executeClaudeCode env = Except.ok (classify env.parse env.exitCode
      (parseJSONLOutput env.parse env.fileText).resultMessage env.stderr) := by
  unfold executeClaudeCode
  rw [hmk, hsp, hcv]

/-! ## Claim theorems -/

/-- C6: for every run in which the wrapper exits 0 and the parsed stream's
result event has subtype `error_during_execution`, the executor returns
`success = false` and code `ERROR_DURING_EXECUTION`, with no assumption on
the event's `is_error` flag (the subtype overrides it). -/
theorem executor_error_during_execution_overrides (env : ExecEnv) (rm : Event)
    (hmk : env.mkdirError = Option.none) (hsp : env.spawnError = Option.none)
    (hcv : env.convertError = Option.none) (hex : env.exitCode = 0)
    (hrm : (parseJSONLOutput env.parse env.fileText).resultMessage = Option.some rm)
    (hsub : rm.subtype = Option.some "error_during_execution") :
    executeClaudeCode env = Except.ok
      { output := "Error during execution: Agent encountered an error and did not return a result"
        success := false
        session_id := rm.session_id
        retry_code := RetryCode.errorDuringExecution } := by
  unfold executeClaudeCode
  rw [hmk, hsp, hcv]
  simp only [classify, hex, hrm, Option.isSome_some, and_self, reduceDIte,
    Option.get_some]
  unfold classifyResult
  rw [hsub]
  simp

/-- Witness for C6: a concrete exit-0 run over a stream whose result event
carries subtype `error_during_execution` with `is_error: false` still yields
a failing `ERROR_DURING_EXECUTION` response. -/
theorem executor_error_during_execution_overrides_witness :
    executeClaudeCode envEde = Except.ok
      { output := "Error during execution: Agent encountered an error and did not return a result"
        success := false
        session_id := Option.none
        retry_code := RetryCode.errorDuringExecution } :=
  executor_error_during_execution_overrides envEde rmEde rfl rfl rfl rfl
    (by decide) rfl

/-- C8 counterexample: a 25-character string shaped like a two-line event
stream is strictly shorter than the 500-character default limit, yet
`truncateOutput` rewrites it to the JSONL placeholder instead of returning
it unchanged. -/
theorem truncate_short_input_counterexample :
    outShortJsonl.length < 500 ∧
    truncateOutput parseShortJsonl outShortJsonl.length outShortJsonl 500 truncSuffix
      = "[JSONL output with 2 messages]... (truncated)" ∧
    truncateOutput parseShortJsonl outShortJsonl.length outShortJsonl 500 truncSuffix
      ≠ outShortJsonl := by
  refine ⟨by decide, by decide, by decide⟩

/-- C8 amended: for every input string strictly shorter than the limit that
is not JSONL-shaped (does not start with a `type`-object line and contain an
embedded newline-`type`-object), `truncateOutput` returns it unchanged. -/
theorem truncate_short_input_unchanged (parse : String → Option Event)
    (fuel : Nat) (output : String) (maxLength : Nat) (suffix : String)
    (hshape : isJSONLShaped output = false)
    (hlen : output.length < maxLength) :
    truncateOutput parse fuel output maxLength suffix = output := by
  unfold truncateOutput
  rw [hshape]
  simp only [Bool.false_eq_true, if_false]
  unfold truncRegular
  rw [if_pos (Nat.le_of_lt hlen)]

/-- Witness for C8 amended: a plain short string passes through unchanged. -/
theorem truncate_short_input_unchanged_witness :
    truncateOutput (fun _ => Option.none) 5 "hello" 500 truncSuffix = "hello" :=
  truncate_short_input_unchanged (fun _ => Option.none) 5 "hello" 500
    truncSuffix (by decide) (by decide)

/-- C9 counterexample: with valid arguments and an unresolvable agent
binary, `claude-code-exec.sh` exits before spawning, but with
`EXIT_CLAUDE_ERROR = 1` — the very exit code of a generic agent error, not a
distinguished one. -/
theorem exec_script_binary_not_found_counterexample :
    claudeCodeExec envNoBinary = ⟨EXIT_CLAUDE_ERROR, false⟩ ∧
    EXIT_CLAUDE_ERROR = 1 := by
  refine ⟨by decide, rfl⟩

/-- C9 amended: whenever the wrapper's arguments validate but the agent
binary cannot be resolved, the script exits before spawning any subprocess
with `EXIT_CLAUDE_ERROR` (1) — the same code used for a generic agent
failure, so the two cases are indistinguishable to the Executor. -/
theorem exec_script_binary_not_found_exits_one (env : ExecScriptEnv)
    (hargc : ¬ env.argc < 6)
    (hmodel : env.model = "sonnet" ∨ env.model = "opus")
    (hwd : env.workingDirExists = true)
    (hbin : env.binaryFound = false) :
    claudeCodeExec env = ⟨EXIT_CLAUDE_ERROR, false⟩ := by
  rcases hmodel with h | h <;> simp [claudeCodeExec, hargc, h, hwd, hbin]

/-- Witness for C9 amended, at the concrete no-binary environment. -/
theorem exec_script_binary_not_found_exits_one_witness :
    claudeCodeExec envNoBinary = ⟨EXIT_CLAUDE_ERROR, false⟩ :=
  exec_script_binary_not_found_exits_one envNoBinary (by decide)
    (Or.inl rfl) rfl rfl

/-- C10: the template entry point builds its prompt request with
`dangerously_skip_permissions` hard-coded to `true`, and the template shell
wrapper always hands `"true"` as the sixth (skip-permissions) argument to
`claude-code-exec.sh`, whatever the caller passed. -/
theorem template_always_skips_permissions :
    (∀ (req : AgentTemplateRequest) (outputFile : String),
      (buildPromptRequest req outputFile).dangerously_skip_permissions = true) ∧
    (∀ (argc : Nat)
        (slashCommand args outputFile model workingDir mcpConfigPath : String)
        (execArgs : List String),
      claudeCodeTemplate argc slashCommand args outputFile model workingDir
          mcpConfigPath = Except.ok execArgs →
      execArgs.getLast? = Option.some "true") := by
  constructor
  · intro req outputFile
    rfl
  · intro argc slashCommand args outputFile model workingDir mcpConfigPath
      execArgs h
    unfold claudeCodeTemplate at h
    split at h
    · exact absurd h (by simp)
    · split at h
      · exact absurd h (by simp)
      · injection h with h1
        rw [← h1]
        rfl

/-- Witness for C10 at a concrete template request and concrete wrapper
arguments. -/
theorem template_always_skips_permissions_witness :
    (buildPromptRequest reqTemplate "out.jsonl").dangerously_skip_permissions
      = true ∧
    (["/build x", "sonnet", "out.jsonl", "wd", "", "true"] : List String).getLast?
      = Option.some "true" :=
  ⟨template_always_skips_permissions.1 reqTemplate "out.jsonl",
   template_always_skips_permissions.2 6 "/build" "x" "out.jsonl" "sonnet"
     "wd" "" ["/build x", "sonnet", "out.jsonl", "wd", "", "true"] (by decide)⟩

/-- C1 counterexample: a clean exit-0 run whose result event is flagged
`is_error: true` yields `retry_code = NONE` together with
`success = false` — refuting that `NONE` is always paired with
`success = true`. -/
theorem executor_none_pairs_with_failure_counterexample :
    executeClaudeCode envErrTrue = Except.ok
      { output := "boom", success := false, session_id := Option.some "s",
        retry_code := RetryCode.none } := by
  decide

/-- C1 amended: every retry code other than `NONE` implies
`success = false`; `NONE` itself does not imply success — it reports the
result event's own `is_error` verdict, which may be a failure (see the
counterexample). -/
theorem executor_nonnone_code_implies_failure (env : ExecEnv)
    (r : AgentPromptResponse)
    (hok : executeClaudeCode env = Except.ok r)
    (hcode : r.retry_code ≠ RetryCode.none) :
    r.success = false := by
  unfold executeClaudeCode at hok
  cases hmk : env.mkdirError with
  | some e => rw [hmk] at hok; exact absurd hok (by simp)
  | none =>
  rw [hmk] at hok
  cases hsp : env.spawnError with
  | some e =>
    rw [hsp] at hok
    injection hok with h1
    rw [← h1]
  | none =>
  rw [hsp] at hok
  cases hcv : env.convertError with
  | some e =>
    rw [hcv] at hok
    injection hok with h1
    rw [← h1]
  | none =>
  rw [hcv] at hok
  injection hok with h1
  rcases classify_success_or_none env.parse env.exitCode
      (parseJSONLOutput env.parse env.fileText).resultMessage env.stderr with
    hf | hn
  · rw [← h1]; exact hf
  · exact absurd (h1 ▸ hn) hcode

/-- Witness for C1 amended: a timed-out run (exit 124) carries
`TIMEOUT_ERROR` and indeed `success = false`. -/
theorem executor_nonnone_code_implies_failure_witness :
    executeClaudeCode envTimeout = Except.ok timeoutResponse ∧
    timeoutResponse.success = false :=
  ⟨by decide,
   executor_nonnone_code_implies_failure envTimeout timeoutResponse
     (by decide) (by decide)⟩

/-- C3 counterexample: when the placeholder write that ensures the output
directory exists throws, `executeClaudeCode` does not return an
`EXECUTION_ERROR` response — the exception escapes to the caller, because
that write sits before the `try` block. -/
theorem executor_mkdir_failure_throws_counterexample :
    executeClaudeCode envMkdirFail =
      Except.error "EACCES: permission denied" := by
  decide

/-- C3 amended: an exception raised inside the `try` block while launching
the process wrapper yields a returned response with code `EXECUTION_ERROR`
(spec: `invocationError`), `success = false` and the exception description
as output; but an exception raised while ensuring the output directory
exists — which happens before the `try` — propagates to the caller
instead of being classified. -/
theorem executor_invocation_error_classification :
    (∀ (env : ExecEnv) (e : String),
        env.mkdirError = Option.none → env.spawnError = Option.some e →
        executeClaudeCode env = Except.ok
          { output := "Error executing Claude Code: " ++ e, success := false,
            session_id := Option.none,
            retry_code := RetryCode.executionError }) ∧
    (∀ (env : ExecEnv) (e : String),
        env.mkdirError = Option.some e →
        executeClaudeCode env = Except.error e) := by
  constructor
  · intro env e hmk hsp
    unfold executeClaudeCode
    rw [hmk, hsp]
  · intro env e hmk
    unfold executeClaudeCode
    rw [hmk]

/-- Witness for C3 amended: a concrete spawn failure is classified as
`EXECUTION_ERROR`, and the concrete directory-creation failure escapes. -/
theorem executor_invocation_error_classification_witness :
    executeClaudeCode
      { envConvGood with spawnError := Option.some "ENOENT: spawn failed" }
      = Except.ok
        { output := "Error executing Claude Code: ENOENT: spawn failed",
          success := false, session_id := Option.none,
          retry_code := RetryCode.executionError } ∧
    executeClaudeCode envMkdirFail = Except.error "EACCES: permission denied" :=
  ⟨executor_invocation_error_classification.1
     { envConvGood with spawnError := Option.some "ENOENT: spawn failed" }
     "ENOENT: spawn failed" rfl rfl,
   executor_invocation_error_classification.2 envMkdirFail
     "EACCES: permission denied" rfl⟩

/-- C4 counterexample: two runs identical except that the JSONL-to-JSON
audit converter's write throws in the second; the first returns a successful
`NONE` response, the second is re-classified to a failing
`EXECUTION_ERROR` response — the audit failure changed the returned
response. -/
theorem executor_audit_failure_changes_response_counterexample :
    executeClaudeCode envConvGood = Except.ok
      { output := "ok", success := true, session_id := Option.none,
        retry_code := RetryCode.none } ∧
    executeClaudeCode envConvBad = Except.ok
      { output := "Error executing Claude Code: disk full", success := false,
        session_id := Option.none, retry_code := RetryCode.executionError } := by
  refine ⟨by decide, by decide⟩

/-- C4 amended: of the three best-effort writers, only the final-object
snapshot writer can never change the returned response (its whole body is
wrapped in its own catch); a throwing write inside the JSONL-to-JSON
converter re-classifies the invocation as a failing `EXECUTION_ERROR`
response, and a throwing prompt-persistence write propagates out of
`executeTemplate` as an exception. -/
theorem executor_audit_writer_failures :
    (∀ (env : ExecEnv) (e : String),
        env.mkdirError = Option.none → env.spawnError = Option.none →
        env.convertError = Option.some e →
        executeClaudeCode env = Except.ok
          { output := "Error executing Claude Code: " ++ e, success := false,
            session_id := Option.none,
            retry_code := RetryCode.executionError }) ∧
    (∀ (req : AgentTemplateRequest) (outputFile e : String)
        (run : AgentPromptRequest → AgentPromptResponse),
        matchesSlashCommand (buildPromptRequest req outputFile).prompt = true →
        executeTemplate req outputFile Option.none (Option.some e) run =
          Except.error e) ∧
    (∀ (env : ExecEnv) (e : String),
        executeClaudeCode { env with saveLastError := Option.some e } =
          executeClaudeCode { env with saveLastError := Option.none }) := by
  refine ⟨?_, ?_, ?_⟩
  · intro env e hmk hsp hcv
    unfold executeClaudeCode
    rw [hmk, hsp, hcv]
  · intro req outputFile e run hmatch
    simp [executeTemplate, savePromptThrows, hmatch]
  · intro env e
    rfl

/-- Witness for C4 amended, at concrete environments: the converter failure
becomes `EXECUTION_ERROR`, the prompt-write failure escapes
`executeTemplate`, and toggling the snapshot writer's failure leaves the
outcome untouched. -/
theorem executor_audit_writer_failures_witness :
    executeClaudeCode envConvBad = Except.ok
      { output := "Error executing Claude Code: disk full", success := false,
        session_id := Option.none, retry_code := RetryCode.executionError } ∧
    executeTemplate reqTemplate "out.jsonl" Option.none
        (Option.some "ENOSPC: no space") (fun _ => respOk) =
      Except.error "ENOSPC: no space" ∧
    executeClaudeCode { envConvGood with saveLastError := Option.some "boom" }
      = executeClaudeCode { envConvGood with saveLastError := Option.none } :=
  ⟨executor_audit_writer_failures.1 envConvBad "disk full" rfl rfl rfl,
   executor_audit_writer_failures.2.1 reqTemplate "out.jsonl"
     "ENOSPC: no space" (fun _ => respOk) (by decide),
   executor_audit_writer_failures.2.2 envConvGood "boom"⟩

/-- C5 counterexample: an exit-1 run with non-empty captured stderr *and* an
error-flagged result event returns the result event's text prefixed as a
Claude Code error — the result event overrides the non-empty stderr, the
opposite of the claimed priority order in which non-empty stderr wins. -/
theorem executor_agent_error_priority_counterexample :
    envAgentErr.stderr = "stderr text" ∧
    executeClaudeCode envAgentErr = Except.ok
      { output := "Claude Code error: agent refused", success := false,
        session_id := Option.some "s5",
        retry_code := RetryCode.claudeCodeError } := by
  refine ⟨rfl, by decide⟩

/-- C5 amended: for every run whose wrapper exit code is neither 0 nor 124,
the executor returns `CLAUDE_CODE_ERROR` (spec: `agentError`) with output
chosen in this priority order — the result event's own text prefixed as a
Claude Code error whenever a result event exists with a truthy `is_error`,
else the captured stderr if non-empty, else a generic
"failed with exit code N" message — passed through the 800-character
truncation. -/
theorem executor_agent_error_priority (env : ExecEnv)
    (hmk : env.mkdirError = Option.none) (hsp : env.spawnError = Option.none)
    (hcv : env.convertError = Option.none)
    (h0 : env.exitCode ≠ 0) (h124 : env.exitCode ≠ 124) :
    executeClaudeCode env = Except.ok
      { output := truncateOutput env.parse
          (amendedAgentErrorMsg
            (parseJSONLOutput env.parse env.fileText).resultMessage
            env.stderr env.exitCode).length
          (amendedAgentErrorMsg
            (parseJSONLOutput env.parse env.fileText).resultMessage
            env.stderr env.exitCode) 800 truncSuffix
        success := false
        session_id :=
          ((parseJSONLOutput env.parse env.fileText).resultMessage).bind
            Event.session_id
        retry_code := RetryCode.claudeCodeError } := by
  rw [executeClaudeCode_clean env hmk hsp hcv]
  unfold classify
  rw [dif_neg (by intro h; exact h0 h.1), if_neg h124]
  unfold agentErrorResponse amendedAgentErrorMsg
  by_cases hie :
      (((parseJSONLOutput env.parse env.fileText).resultMessage).bind
        Event.is_error).getD false = true
  · simp only [hie, if_true]
  · simp only [Bool.not_eq_true] at hie
    simp only [hie, Bool.false_eq_true, if_false]

/-- Witness for C5 amended, at the concrete exit-1 run: the amended priority
formula evaluates to the result-event text even though stderr is
non-empty. -/
theorem executor_agent_error_priority_witness :
    executeClaudeCode envAgentErr = Except.ok
      { output := truncateOutput envAgentErr.parse
          (amendedAgentErrorMsg
            (parseJSONLOutput envAgentErr.parse envAgentErr.fileText).resultMessage
            envAgentErr.stderr envAgentErr.exitCode).length
          (amendedAgentErrorMsg
            (parseJSONLOutput envAgentErr.parse envAgentErr.fileText).resultMessage
            envAgentErr.stderr envAgentErr.exitCode) 800 truncSuffix
        success := false
        session_id := Option.some "s5"
        retry_code := RetryCode.claudeCodeError } :=
  executor_agent_error_priority envAgentErr rfl rfl rfl (by decide) (by decide)

/-- C2 counterexample: an output file with one parseable result line followed
by one malformed line.  The parseable result event is there and the malformed
line fails to parse, yet the parser returns no messages and a null result —
the malformed line aborts the whole parse instead of being skipped
individually. -/
theorem parser_malformed_line_counterexample :
    parseOk lineOk = Option.some rmOk ∧
    rmOk.type = Option.some "result" ∧
    parseOk "not json" = Option.none ∧
    splitLines textMixed = [lineOk, "not json"] ∧
    parseJSONLOutput parseOk (Option.some textMixed) = ⟨[], Option.none⟩ := by
  refine ⟨by decide, rfl, by decide, by decide, by decide⟩

/-- C2 amended: the parse is all-or-nothing.  When every non-blank line
parses, the parser returns all parsed events, and if exactly one of them is
result-typed it is returned as the result event whatever its position; but
when any single line fails to parse, the whole parse aborts to an empty
event list and a null result event. -/
theorem parser_all_or_nothing :
    (∀ (parse : String → Option Event) (text : String) (ms : List Event)
        (rm : Event),
        mapLines parse (splitLines text) = Option.some ms →
        ms.filter (fun m => m.type == Option.some "result") = [rm] →
        parseJSONLOutput parse (Option.some text) = ⟨ms, Option.some rm⟩) ∧
    (∀ (parse : String → Option Event) (text : String) (l : String),
        l ∈ splitLines text → parse l = Option.none →
        parseJSONLOutput parse (Option.some text) = ⟨[], Option.none⟩) := by
  constructor
  · intro parse text ms rm hmap hfilter
    show (match mapLines parse (splitLines text) with
      | Option.none => (⟨[], Option.none⟩ : ParseOutcome)
      | Option.some messages => ⟨messages, findResultMessage messages⟩) =
        ⟨ms, Option.some rm⟩
    rw [hmap]
    show (⟨ms, findResultMessage ms⟩ : ParseOutcome) = ⟨ms, Option.some rm⟩
    rw [findResultMessage_of_unique ms rm hfilter]
  · intro parse text l hmem hl
    show (match mapLines parse (splitLines text) with
      | Option.none => (⟨[], Option.none⟩ : ParseOutcome)
      | Option.some messages => ⟨messages, findResultMessage messages⟩) =
        ⟨[], Option.none⟩
    rw [mapLines_eq_none hmem hl]

/-- Witness for C2 amended: the fully parseable single-line file yields its
result event; the file with a malformed second line yields the empty
outcome. -/
theorem parser_all_or_nothing_witness :
    parseJSONLOutput parseOk (Option.some lineOk) =
      ⟨[rmOk], Option.some rmOk⟩ ∧
    parseJSONLOutput parseOk (Option.some textMixed) = ⟨[], Option.none⟩ :=
  ⟨parser_all_or_nothing.1 parseOk lineOk [rmOk] rmOk (by decide) (by decide),
   parser_all_or_nothing.2 parseOk textMixed "not json" (by decide)
     (by decide)⟩

/-- The retry loop, started at attempt index `a` with `r` iterations
available, runs through `k` retryable agent-error failures, stops at the
first success, and has invoked the executor once per attempt. -/
theorem retryFrom_spec (responses : Nat → AgentPromptResponse) :
    ∀ (k a r : Nat),
      (∀ i, i < k → (responses (a + i)).success = false ∧
        (responses (a + i)).retry_code = RetryCode.claudeCodeError) →
      (responses (a + k)).success = true →
      k + 1 ≤ r →
      retryFrom responses a r = Option.some (responses (a + k), a + k + 1) := by
  intro k
  induction k with
  | zero =>
    intro a r hfail hsucc hr
    obtain ⟨r', rfl⟩ : ∃ r', r = r' + 1 := ⟨r - 1, by omega⟩
    rw [Nat.add_zero] at hsucc
    unfold retryFrom
    simp [hsucc]
  | succ n ih =>
    intro a r hfail hsucc hr
    obtain ⟨r', rfl⟩ : ∃ r', r = r' + 1 := ⟨r - 1, by omega⟩
    have h0 := hfail 0 (Nat.succ_pos n)
    rw [Nat.add_zero] at h0
    have hbeq : (RetryCode.claudeCodeError == RetryCode.none) = false := by
      decide
    have hcont : retryableCodes.contains RetryCode.claudeCodeError = true := by
      decide
    have hr' : ¬ (r' = 0) := by omega
    unfold retryFrom
    simp only [h0.1, h0.2, hbeq, hcont, Bool.or_self, Bool.false_eq_true,
      if_false, Bool.not_true, hr', if_neg]
    have hfail' : ∀ i, i < n → (responses (a + 1 + i)).success = false ∧
        (responses (a + 1 + i)).retry_code = RetryCode.claudeCodeError := by
      intro i hi
      have h := hfail (i + 1) (by omega)
      rw [show a + (i + 1) = a + 1 + i by omega] at h
      exact h
    have hsucc' : (responses (a + 1 + n)).success = true := by
      rw [show a + 1 + n = a + (n + 1) by omega]
      exact hsucc
    rw [show a + (n + 1) = a + 1 + n by omega]
    exact ih (a + 1) r' hfail' hsucc' (by omega)

/-- C7: when the first `k` attempts all come back as retryable agent errors
(`CLAUDE_CODE_ERROR`, `success = false`) and attempt `k` (0-indexed; the
(k+1)-th call) succeeds, the retry controller invoked with
`maxRetries ≥ k + 1` returns that successful response and performs exactly
`k + 1` underlying invocations, stopping at the first success. -/
theorem retry_stops_at_first_success (responses : Nat → AgentPromptResponse)
    (k maxRetries : Nat)
    (hfail : ∀ i, i < k → (responses i).success = false ∧
        (responses i).retry_code = RetryCode.claudeCodeError)
    (hsucc : (responses k).success = true)
    (hmax : k + 1 ≤ maxRetries) :
    executeClaudeCodeWithRetry responses maxRetries =
      Option.some (responses k, k + 1) := by
  unfold executeClaudeCodeWithRetry
  have h := retryFrom_spec responses k 0 (maxRetries + 1)
    (by intro i hi; simpa using hfail i hi)
    (by simpa using hsucc) (by omega)
  simpa using h

/-- Witness for C7: the first attempt of `respSeq` fails retryably and the
second succeeds; with `maxRetries = 3` the controller returns the success
after exactly 2 invocations. -/
theorem retry_stops_at_first_success_witness :
    executeClaudeCodeWithRetry respSeq 3 = Option.some (respOk, 2) := by
  have h := retry_stops_at_first_success respSeq 1 3
    (fun i hi => by
      have h0 : i = 0 := by omega
      subst h0
      exact ⟨rfl, rfl⟩)
    rfl (by omega)
  simpa using h

end ClaudeExec
